import Mathlib

/-
Shallow embedding of `src/lib/util/SparqlExpressionEvaluator.js` (the
SPARQL filter-expression evaluator of this repository) and proofs about
the claims of its specification.

Modelling conventions:
* JavaScript runtime values that flow through the evaluator are modelled by
  `JSVal` (strings, booleans, numbers, `null`, `undefined`).
* JavaScript numbers are modelled by `JSNum`: `NaN`, the two infinities and
  finite values as exact rationals.  IEEE-754 rounding is not modelled; on
  the small integer inputs used below, double arithmetic is exact, so the
  model and the code agree on every concrete input appearing in a theorem.
* Thrown `Error` / `TypeError` / `ReferenceError` values are modelled by
  `JSError`; evaluation is in `Except JSError`.  Structured constructors
  (`unsupportedOperator`, `invalidArgumentCount`, `unboundVariable`) stand
  for the specific `throw new Error(...)` sites of the compiler whose
  message is built from the recorded data.
* The `n3` term-model collaborator (`N3Util`) is not part of this
  repository; it is modelled from the spec (sections 3 and 6): term shapes
  are a bare IRI, a quoted literal, a quoted literal with datatype
  (`"lex"^^iri`, with or without angle brackets) and a quoted literal with
  language (`"lex"@tag`).  The model is total; outside those shapes it
  returns none/empty instead of modelling any particular n3 version's
  exception behaviour, and no claim below depends on out-of-shape inputs.
-/

namespace SparqlEE

/-! ### String helpers

Several core `String` functions (`startsWith`, `toUpper`, `trim`, ...) are
implemented over byte positions and do not reduce inside the kernel, so
the embedding uses character-list equivalents throughout. -/

/-- `s.startsWith p`, over character lists. -/
def strStartsWith (s p : String) : Bool := p.data.isPrefixOf s.data

/-- `s.endsWith p`, over character lists. -/
def strEndsWith (s p : String) : Bool := p.data.isSuffixOf s.data

/-- Does `s` contain the character `c`? -/
def strContainsC (s : String) (c : Char) : Bool := s.data.contains c

/-- `String.prototype.toLowerCase` (ASCII; the terms in this development
are ASCII). -/
def lowerStr (s : String) : String := String.mk (s.data.map Char.toLower)

/-- `String.prototype.toUpperCase` (ASCII). -/
def upperStr (s : String) : String := String.mk (s.data.map Char.toUpper)

/-- `String.prototype.trim`. -/
def trimStr (s : String) : String :=
  String.mk (((s.data.dropWhile Char.isWhitespace).reverse.dropWhile
    Char.isWhitespace).reverse)

/-! ### Exact fractions

JavaScript numbers are modelled exactly.  Mathlib's `ℚ` normalises with
`Nat.gcd`, which is defined by well-founded recursion and does not reduce
definitionally, so concrete evaluations could not be checked by the
kernel; `QR` is the same normalised-fraction construction with a
fuel-driven gcd that does reduce. -/

/-- Euclid's algorithm with explicit fuel (`fuel ≥ a` suffices, since the
first argument strictly decreases). -/
def gcdF : Nat → Nat → Nat → Nat
  | 0, _, b => b
  | _ + 1, 0, b => b
  | fuel + 1, a + 1, b => gcdF fuel (b % (a + 1)) (a + 1)

/-- Greatest common divisor (reduces definitionally). -/
def natGcd (a b : Nat) : Nat := gcdF a a b

/-- An exact fraction `num / den`; all constructors below keep it
normalised (coprime, positive denominator), so structural equality is
value equality. -/
structure QR where
  num : Int
  den : Nat
deriving DecidableEq, Repr

namespace QR

/-- Reduce a fraction to lowest terms. -/
def normalize (x : QR) : QR :=
  let g := natGcd x.num.natAbs x.den
  if g = 0 then ⟨0, 1⟩ else ⟨x.num / (g : Int), x.den / g⟩

/-- Embed an integer. -/
def ofInt (n : Int) : QR := ⟨n, 1⟩

/-- Is the fraction zero? -/
def isZero (a : QR) : Bool := a.num == 0

/-- Exact addition. -/
def add (a b : QR) : QR :=
  normalize ⟨a.num * (b.den : Int) + b.num * (a.den : Int), a.den * b.den⟩

/-- Negation. -/
def neg (a : QR) : QR := ⟨-a.num, a.den⟩

/-- Exact subtraction. -/
def sub (a b : QR) : QR := add a (neg b)

/-- Exact multiplication. -/
def mul (a b : QR) : QR := normalize ⟨a.num * b.num, a.den * b.den⟩

/-- Exact division (callers exclude a zero divisor). -/
def div (a b : QR) : QR :=
  normalize ⟨a.num * (if b.num < 0 then -(b.den : Int) else (b.den : Int)),
             a.den * b.num.natAbs⟩

/-- Strict order. -/
def blt (a b : QR) : Bool := decide (a.num * (b.den : Int) < b.num * (a.den : Int))

/-- Non-strict order. -/
def ble (a b : QR) : Bool := decide (a.num * (b.den : Int) ≤ b.num * (a.den : Int))

/-- Floor (`Int` division in Lean rounds toward negative infinity for a
positive divisor). -/
def floor (a : QR) : Int := a.num / (a.den : Int)

/-- Ceiling. -/
def ceil (a : QR) : Int := -((neg a).floor)

/-- Truncation toward zero. -/
def trunc (a : QR) : Int :=
  if 0 ≤ a.num then a.num / (a.den : Int) else -((-a.num) / (a.den : Int))

/-- Absolute value. -/
def qabs (a : QR) : QR := ⟨(a.num.natAbs : Int), a.den⟩

/-- Multiply by a power of ten (for the decimal-exponent notation of
`parseFloat`). -/
def mulPow10 (a : QR) (e : Int) : QR :=
  if 0 ≤ e then mul a ⟨((10 ^ e.toNat : Nat) : Int), 1⟩
  else mul a ⟨1, 10 ^ (-e).toNat⟩

end QR

/-- A JavaScript number: NaN, the infinities, or a finite value (modelled
as an exact fraction; IEEE-754 rounding is not modelled — on the small
integer inputs used in the theorems below, double arithmetic is exact). -/
inductive JSNum where
  | nan
  | inf
  | ninf
  | fin (q : QR)
deriving DecidableEq, Repr

namespace JSNum

/-- JavaScript `+` on numbers. -/
def add : JSNum → JSNum → JSNum
  | nan, _ => nan
  | _, nan => nan
  | inf, ninf => nan
  | ninf, inf => nan
  | inf, _ => inf
  | _, inf => inf
  | ninf, _ => ninf
  | _, ninf => ninf
  | fin a, fin b => fin (a.add b)

/-- JavaScript unary negation on numbers. -/
def neg : JSNum → JSNum
  | nan => nan
  | inf => ninf
  | ninf => inf
  | fin a => fin a.neg

/-- JavaScript `-` on numbers. -/
def sub (a b : JSNum) : JSNum := add a (neg b)

/-- JavaScript `*` on numbers. -/
def mul : JSNum → JSNum → JSNum
  | nan, _ => nan
  | _, nan => nan
  | inf, inf => inf
  | inf, ninf => ninf
  | ninf, inf => ninf
  | ninf, ninf => inf
  | inf, fin b => if b.isZero then nan else if 0 < b.num then inf else ninf
  | fin a, inf => if a.isZero then nan else if 0 < a.num then inf else ninf
  | ninf, fin b => if b.isZero then nan else if 0 < b.num then ninf else inf
  | fin a, ninf => if a.isZero then nan else if 0 < a.num then ninf else inf
  | fin a, fin b => fin (a.mul b)

/-- JavaScript `/` on numbers (division by zero gives an infinity or NaN;
the negative zero of IEEE-754 is not modelled). -/
def div : JSNum → JSNum → JSNum
  | nan, _ => nan
  | _, nan => nan
  | inf, inf => nan
  | inf, ninf => nan
  | ninf, inf => nan
  | ninf, ninf => nan
  | inf, fin b => if 0 ≤ b.num then inf else ninf
  | ninf, fin b => if 0 ≤ b.num then ninf else inf
  | fin _, inf => fin ⟨0, 1⟩
  | fin _, ninf => fin ⟨0, 1⟩
  | fin a, fin b =>
      if b.isZero then (if a.isZero then nan else if 0 < a.num then inf else ninf)
      else fin (a.div b)

/-- JavaScript `<` on numbers (false whenever either side is NaN). -/
def lt : JSNum → JSNum → Bool
  | nan, _ => false
  | _, nan => false
  | inf, _ => false
  | ninf, ninf => false
  | ninf, _ => true
  | fin _, inf => true
  | fin _, ninf => false
  | fin a, fin b => a.blt b

/-- JavaScript `<=` on numbers (false whenever either side is NaN). -/
def le : JSNum → JSNum → Bool
  | nan, _ => false
  | _, nan => false
  | ninf, _ => true
  | inf, inf => true
  | inf, _ => false
  | fin _, inf => true
  | fin _, ninf => false
  | fin a, fin b => a.ble b

/-- `Math.abs`. -/
def abs : JSNum → JSNum
  | nan => nan
  | inf => inf
  | ninf => inf
  | fin a => fin a.qabs

/-- `Math.ceil`. -/
def ceil : JSNum → JSNum
  | nan => nan
  | inf => inf
  | ninf => ninf
  | fin a => fin (QR.ofInt a.ceil)

/-- `Math.floor`. -/
def floor : JSNum → JSNum
  | nan => nan
  | inf => inf
  | ninf => ninf
  | fin a => fin (QR.ofInt a.floor)

end JSNum

/-- Decimal digits of the fractional part `q` (with `0 ≤ q < 1`), up to
`fuel` digits.  JavaScript prints the shortest round-tripping decimal of a
double; this exact-fraction rendering agrees with it on terminating
decimals of small numbers, which are the only ones any theorem touches. -/
def fracDigits : QR → Nat → String
  | _, 0 => ""
  | q, fuel + 1 =>
      if q.isZero then ""
      else
        let q10 := q.mul ⟨10, 1⟩
        let d := q10.floor
        (toString d) ++ fracDigits (q10.sub (QR.ofInt d)) fuel

/-- JavaScript `String(n)` for a number. -/
def jsNumToString : JSNum → String
  | .nan => "NaN"
  | .inf => "Infinity"
  | .ninf => "-Infinity"
  | .fin q =>
      if q.den = 1 then toString q.num
      else
        let sign := if q.num < 0 then "-" else ""
        let a := q.qabs
        sign ++ toString a.floor ++ "." ++ fracDigits (a.sub (QR.ofInt a.floor)) 20

/-- A JavaScript runtime value as it flows through the evaluator. -/
inductive JSVal where
  | str (s : String)
  | bool (b : Bool)
  | num (n : JSNum)
  | null
  | undefinedV
deriving DecidableEq, Repr

/-- JavaScript `String(v)` coercion. -/
def jsValToString : JSVal → String
  | .str s => s
  | .bool true => "true"
  | .bool false => "false"
  | .num n => jsNumToString n
  | .null => "null"
  | .undefinedV => "undefined"

/-- JavaScript truthiness of a value. -/
def jsTruthy : JSVal → Bool
  | .str s => decide (s ≠ "")
  | .bool b => b
  | .num (.fin q) => !q.isZero
  | .num .nan => false
  | .num _ => true
  | .null => false
  | .undefinedV => false

/-- JavaScript strict equality `===` (no coercion across types; `NaN` is
not equal to itself). -/
def jsStrictEq : JSVal → JSVal → Bool
  | .num .nan, _ => false
  | _, .num .nan => false
  | a, b => a == b

/-- Integer value of a decimal digit list (most significant first). -/
def digitsInt (ds : List Char) : Int :=
  ds.foldl (fun acc c => acc * 10 + ((c.toNat - 48 : Nat) : Int)) 0

/-- Parses a decimal number `digits [. digits] [e|E [sign] digits]` from the
front of a character list; returns its value and the unconsumed rest, or
`none` when there is not a single digit. -/
def parseDec (cs : List Char) : Option (QR × List Char) :=
  let ds := cs.takeWhile Char.isDigit
  let rest := cs.dropWhile Char.isDigit
  let fsplit : List Char × List Char :=
    match rest with
    | '.' :: r => (r.takeWhile Char.isDigit, r.dropWhile Char.isDigit)
    | _ => ([], rest)
  let fs := fsplit.1
  let rest1 := match rest with
    | '.' :: _ => fsplit.2
    | _ => rest
  if ds.isEmpty && fs.isEmpty then none
  else
    let k := fs.length
    let base : QR :=
      QR.normalize ⟨digitsInt ds * ((10 ^ k : Nat) : Int) + digitsInt fs, 10 ^ k⟩
    match rest1 with
    | 'e' :: r | 'E' :: r =>
        let esplit : Int × List Char :=
          match r with
          | '+' :: r2 => (1, r2)
          | '-' :: r2 => (-1, r2)
          | _ => (1, r)
        let eds := esplit.2.takeWhile Char.isDigit
        if eds.isEmpty then some (base, rest1)
        else
          some (base.mulPow10 (esplit.1 * digitsInt eds),
                esplit.2.dropWhile Char.isDigit)
    | _ => some (base, rest1)

/-- JavaScript `parseFloat`: skips leading whitespace, reads an optional
sign and a decimal number prefix, NaN when none is found. -/
def jsParseFloat (s : String) : JSNum :=
  let cs := s.data.dropWhile (fun c => c == ' ' || c == '\t' || c == '\n' || c == '\r')
  let ssplit : Bool × List Char :=
    match cs with
    | '+' :: r => (false, r)
    | '-' :: r => (true, r)
    | _ => (false, cs)
  if "Infinity".data.isPrefixOf ssplit.2 then
    (if ssplit.1 then .ninf else .inf)
  else
    match parseDec ssplit.2 with
    | some (q, _) => .fin (if ssplit.1 then q.neg else q)
    | none => .nan

/-- JavaScript `Number(v)` coercion (hexadecimal forms are not modelled;
no claim depends on them). -/
def jsToNumber : JSVal → JSNum
  | .num n => n
  | .bool true => .fin ⟨1, 1⟩
  | .bool false => .fin ⟨0, 1⟩
  | .null => .fin ⟨0, 1⟩
  | .undefinedV => .nan
  | .str s =>
      let t := trimStr s
      if t = "" then .fin ⟨0, 1⟩
      else if t = "Infinity" || t = "+Infinity" then .inf
      else if t = "-Infinity" then .ninf
      else
        let tsplit : Bool × List Char :=
          match t.data with
          | '+' :: r => (false, r)
          | '-' :: r => (true, r)
          | _ => (false, t.data)
        match parseDec tsplit.2 with
        | some (q, []) => .fin (if tsplit.1 then q.neg else q)
        | _ => .nan

/-- JavaScript `String.prototype.indexOf`: index of the first occurrence of
`b` in `a`, `-1` when there is none (`0` for the empty search string). -/
def jsIndexOf (a b : String) : Int :=
  match (List.range (a.length + 1)).find? (fun i => strStartsWith (a.drop i) b) with
  | some i => (i : Int)
  | none => -1

/-- JavaScript `String.prototype.substr(start, length)`. -/
def jsSubstr (s : String) (start len : JSNum) : String :=
  let size : Int := s.length
  let intStart : Int :=
    match start with
    | .ninf => 0
    | .nan => 0
    | .inf => size
    | .fin q => let t := q.trunc; if t < 0 then max (size + t) 0 else t
  let intLen : Int :=
    match len with
    | .ninf => 0
    | .nan => 0
    | .inf => size
    | .fin q => q.trunc
  let e := min (intStart + intLen) size
  if intStart ≥ e then "" else (s.drop intStart.toNat).take (e - intStart).toNat

/-! ## Term model collaborator

Modelled from the spec: the RDF term collaborator (`N3Util` of the `n3`
package) is external to this repository (spec section 6); its predicates
`isLiteral` / `isUri` / `isBlank` and extractors `getLiteralValue` /
`getLiteralType` / `getLiteralLanguage` are modelled here from the spec's
term shapes (section 3): bare IRI text, `"lex"`, `"lex"^^iri`,
`"lex"^^<iri>`, `"lex"@tag`.  The value extractor captures everything
between the opening quote and the last quote, as the library's regular
expression `^"([^]*)"` does. -/

/-- `N3Util.isLiteral`: the term starts with a double quote. -/
def isLiteral (s : String) : Bool := strStartsWith s "\""

/-- `N3Util.isUri`: a non-empty term that does not start with a quote. -/
def isUri (s : String) : Bool := decide (s ≠ "") && !(strStartsWith s "\"")

/-- `N3Util.isBlank`: the term starts with `_:`. -/
def isBlank (s : String) : Bool := strStartsWith s "_:"

/-- Splits a literal term into the part between the opening quote and the
last quote, and the suffix after that quote; `none` when the string does
not start with a quote or has no second quote. -/
def splitLit (s : String) : Option (String × String) :=
  match s.data with
  | '"' :: rest =>
      match (rest.reverse.findIdx? (fun c => c == '"')) with
      | some j =>
          let i := rest.length - 1 - j
          some (String.mk (rest.take i), String.mk (rest.drop (i + 1)))
      | none => none
  | _ => none

/-- `N3Util.getLiteralValue` (total model: `none` where the library's
regular expression does not match). -/
def getLiteralValue (s : String) : Option String := (splitLit s).map Prod.fst

/-- Is `t` a well-formed language tag (`[-a-zA-Z]+`, the library's
case-insensitive pattern)? -/
def isLangTag (t : String) : Bool :=
  decide (t ≠ "") && t.data.all (fun c => c.isAlpha || c == '-')

/-- `N3Util.getLiteralLanguage`: the lower-cased language tag of a
language-tagged literal, `""` otherwise. -/
def getLiteralLanguage (s : String) : String :=
  match splitLit s with
  | some (_, suf) =>
      if strStartsWith suf "@" && isLangTag (suf.drop 1) then lowerStr (suf.drop 1)
      else ""
  | none => ""

/-- `N3Util.getLiteralType`: the datatype IRI of a datatype-tagged literal
(the library's pattern `\^\^<?([^<>]*)>?` accepts the IRI with or without
angle brackets), `none` otherwise (also for an empty datatype, which is
falsy everywhere the code consumes it). -/
def getLiteralType (s : String) : Option String :=
  match splitLit s with
  | some (_, suf) =>
      if strStartsWith suf "^^" then
        let t := suf.drop 2
        let t1 := if strStartsWith t "<" then t.drop 1 else t
        let t2 := if strEndsWith t1 ">" then t1.dropRight 1 else t1
        if t2 = "" || strContainsC t2 '<' || strContainsC t2 '>' then none else some t2
      else none
  | none => none

/-- `N3Util.isLiteral` applied to an arbitrary JavaScript value
(`entity && /^"/.test(entity)`, with the string coercion of `test`). -/
def isLiteralV (v : JSVal) : Bool := jsTruthy v && isLiteral (jsValToString v)

/-- `N3Util.isUri` applied to an arbitrary JavaScript value. -/
def isUriV (v : JSVal) : Bool := jsTruthy v && !(strStartsWith (jsValToString v) "\"")

/-- `N3Util.isBlank` applied to an arbitrary JavaScript value. -/
def isBlankV (v : JSVal) : Bool := jsTruthy v && isBlank (jsValToString v)

/-! ## Sentinels and numeric datatype table (source lines 5-28) -/

/-- The XSD namespace prefix. -/
def XSD : String := "http://www.w3.org/2001/XMLSchema#"

/-- Source lines 6-7 declare `XSD_BOOLEAN` twice inside one `var`
statement: `XSD_BOOLEAN = XSD + 'boolean', XSD_BOOLEAN = XSD + 'string'`.
The second initialiser overwrites the first, so at run time `XSD_BOOLEAN`
is the *string* datatype IRI, and both sentinels are tagged with it. -/
def XSD_BOOLEAN : String := XSD ++ "string"

/-- The true sentinel as the code actually builds it:
`"true"^^http://www.w3.org/2001/XMLSchema#string`. -/
def XSD_TRUE : String := "\"true\"^^" ++ XSD_BOOLEAN

/-- The false sentinel as the code actually builds it:
`"false"^^http://www.w3.org/2001/XMLSchema#string`. -/
def XSD_FALSE : String := "\"false\"^^" ++ XSD_BOOLEAN

/-- The array `numeric_types` (source lines 13-28): the full IRIs of the
sixteen numeric XSD datatypes, in source order.  The accompanying loop was
meant to fill the map `XSD_NUMERIC`, but it indexes with
`type.toUpperCase` — the function object itself, the call parentheses are
missing — so `XSD_NUMERIC.INTEGER` is `undefined` at run time. -/
def numeric_types : List String :=
  [XSD ++ "integer", XSD ++ "decimal", XSD ++ "float",
   XSD ++ "double", XSD ++ "nonPositiveInteger", XSD ++ "negativeInteger",
   XSD ++ "long", XSD ++ "int", XSD ++ "short", XSD ++ "byte",
   XSD ++ "nonNegativeInteger", XSD ++ "unsignedLong", XSD ++ "unsignedInt",
   XSD ++ "unsignedShort", XSD ++ "unsignedByte", XSD ++ "positiveInteger"]

/-! ## Expressions, bindings, errors -/

/-- A SPARQL expression node as the evaluator receives it: a plain string
(IRI, literal, or `?`-prefixed variable) or an operation node
`{ type: 'operation', operator, args }`. -/
inductive Expr where
  | str (s : String)
  | operation (operator : String) (args : List Expr)

/-- Variable bindings: a map from `?`-prefixed variable names to term
strings, modelled as an association list. -/
def Bindings := List (String × String)

/-- Key lookup in a bindings object (`bindings[v]` / `v in bindings`). -/
def bindingsGet (b : Bindings) (v : String) : Option String :=
  (List.lookup v (show List (String × String) from b))

/-- A thrown JavaScript exception.  The structured constructors stand for
the compiler's own `throw new Error(...)` sites and record the data from
which the message string is built:
`unsupportedOperator name` ↦ `Unsupported operator: NAME.` (upper-cased),
`invalidArgumentCount name got expected` ↦
`Invalid number of arguments for NAME: got (expected: expected).`,
`unboundVariable v` ↦ `Cannot evaluate variable v because it is not bound.`.
`jsError msg` is `new Error(msg)` thrown inside an operator
implementation; `typeError` / `referenceError` are runtime exceptions the
JavaScript engine itself raises. -/
inductive JSError where
  | unsupportedOperator (name : String)
  | invalidArgumentCount (name : String) (got expected : Nat)
  | unboundVariable (v : String)
  | jsError (msg : String)
  | typeError (msg : String)
  | referenceError (msg : String)
deriving DecidableEq, Repr

/-- The external nondeterminism sources consumed by `RAND` (`Math.random`)
and `UUID`/`STRUUID` (`UUID.v4`). -/
structure Ext where
  rand : JSNum
  uuid : String

/-! ## Operator registry metadata (source lines 168-486)

`operators` is a plain object; `operator.length` is the declared parameter
count of each implementation function.  The entry `uri: this.iri`
evaluates `this.iri` at module load, where `this` is the (then empty)
module exports object, so `operators.uri` is `undefined` and the lookup
treats `uri` exactly like an unknown operator; it is therefore absent from
the arity table. -/

/-- Declared arity (`operator.length`) of each registry entry; `none` for
names absent from the registry.  `concat` is written as a variadic
function with no declared parameters, so its declared arity is 0. -/
def operatorArity : String → Option Nat
  | "+" | "-" | "*" | "/" | "=" | "!=" | "<" | "<=" | ">" | ">=" => some 2
  | "!" => some 1
  | "&&" | "||" => some 2
  | "bound" => some 1
  | "if" => some 3
  | "coalesce" => some 2
  | "exists" | "not exists" => some 1
  | "sameTerm" => some 2
  | "in" | "not in" => some 0
  | "isiri" | "isblank" | "isliteral" | "isnumeric" => some 1
  | "str" | "lang" | "datatype" | "iri" | "bnode" => some 1
  | "strdt" | "strlang" => some 2
  | "uuid" | "struuid" => some 0
  | "strlen" => some 1
  | "substr" => some 3
  | "ucase" | "lcase" => some 1
  | "strstarts" | "strends" | "contains" | "strbefore" | "strafter" => some 2
  | "encode_for_uri" => some 1
  | "concat" => some 0
  | "langmatches" | "regex" => some 2
  | "replace" => some 4
  | "abs" | "round" | "ceil" | "floor" => some 1
  | "rand" | "now" => some 0
  | "year" | "month" | "day" | "hours" | "minutes" | "seconds"
  | "timezone" | "tz" => some 1
  | "md5" | "sha1" | "sha256" | "sha384" | "sha512" => some 1
  | "http://www.w3.org/2001/XMLSchema#integer"
  | "http://www.w3.org/2001/XMLSchema#decimal"
  | "http://www.w3.org/2001/XMLSchema#float"
  | "http://www.w3.org/2001/XMLSchema#double"
  | "http://www.w3.org/2001/XMLSchema#nonPositiveInteger"
  | "http://www.w3.org/2001/XMLSchema#negativeInteger"
  | "http://www.w3.org/2001/XMLSchema#long"
  | "http://www.w3.org/2001/XMLSchema#int"
  | "http://www.w3.org/2001/XMLSchema#short"
  | "http://www.w3.org/2001/XMLSchema#byte"
  | "http://www.w3.org/2001/XMLSchema#nonNegativeInteger"
  | "http://www.w3.org/2001/XMLSchema#unsignedLong"
  | "http://www.w3.org/2001/XMLSchema#unsignedInt"
  | "http://www.w3.org/2001/XMLSchema#unsignedShort"
  | "http://www.w3.org/2001/XMLSchema#unsignedByte"
  | "http://www.w3.org/2001/XMLSchema#positiveInteger"
  | "http://www.w3.org/2001/XMLSchema#string"
  | "http://www.w3.org/2001/XMLSchema#boolean"
  | "http://www.w3.org/2001/XMLSchema#dateTime" => some 1
  | _ => none

/-- Argument / result coercion kinds (`operator.type` /
`operator.resultType`). -/
inductive CoKind where
  | noConv
  | numeric
  | boolean
deriving DecidableEq, Repr

/-- Operators tagged `type = 'numeric'` (source lines 456-462 and
472-476): the first tagging loop covers the arithmetic and comparison
operators, `abs`/`round`/`ceil`/`floor`, and — via
`.concat(numeric_types)` — all sixteen numeric XSD constructor
operators. -/
def numericTypeOps : List String :=
  ["+", "-", "*", "/", "<", "<=", ">", ">=",
   "abs", "round", "ceil", "floor"] ++ numeric_types

/-- Operators tagged `type = 'boolean'` (source lines 465-469). -/
def booleanTypeOps : List String := ["!", "&&", "||"]

/-- Operators whose final `resultType` is `'numeric'`: the third tagging
loop (source lines 472-476) sets it for the eight arithmetic/comparison
operators, but the fourth loop then overwrites it with `'boolean'` for the
comparisons, leaving only the four arithmetic operators. -/
def numericResultOps : List String := ["+", "-", "*", "/"]

/-- Operators whose final `resultType` is `'boolean'` (source lines
479-483).  `!=` is absent from this list in the source, so `!=` has no
result coercion at all. -/
def booleanResultOps : List String :=
  ["!", "&&", "||", "=", "<", "<=", ">", ">=", "langmatches", "regex"]

/-- The argument coercion kind of an operator (`operator.type`). -/
def argCoercionKind (name : String) : CoKind :=
  if numericTypeOps.contains name then .numeric
  else if booleanTypeOps.contains name then .boolean
  else .noConv

/-- The result coercion kind of an operator (`operator.resultType`), after
both result-tagging loops have run (boolean overwrites numeric for the
comparison operators). -/
def resultCoercionKind (name : String) : CoKind :=
  if booleanResultOps.contains name then .boolean
  else if numericResultOps.contains name then .numeric
  else .noConv

/-- `operator.acceptsExpressions` (source line 486): only `bound` receives
its raw argument expressions and the bindings object. -/
def acceptsExpressionsOp (name : String) : Bool := name == "bound"

/-! ## Helper functions (source lines 140-165) -/

/-- `operators.strlang` as a plain string function:
`'"' + lexicalForm + '"@' + langTag`. -/
def strlangFn (lexicalForm langTag : String) : String :=
  "\"" ++ lexicalForm ++ "\"@" ++ langTag

/-- `operators.strdt` as a plain string function: validates that the
datatype is an IRI, then builds `'"' + lexicalForm + '"^^<' + iri + '>'`.
The source message really is missing the space after `Datatype`. -/
def strdtFn (lexicalForm datatypeIRI : String) : Except JSError String :=
  if !(isUri datatypeIRI) then
    .error (.jsError ("Datatype" ++ datatypeIRI ++ " is no valid IRI"))
  else .ok ("\"" ++ lexicalForm ++ "\"^^<" ++ datatypeIRI ++ ">")

/-- `constructLiteral(lexicalForm, literal)` (source lines 140-150): keep
the language tag of `literal` if it has one, else its datatype, else build
a simple quoted literal. -/
def constructLiteral (lexicalForm literal : String) : Except JSError String :=
  let lang := getLiteralLanguage literal
  if lang ≠ "" then .ok (strlangFn lexicalForm lang)
  else
    match getLiteralType literal with
    | some datatype => strdtFn lexicalForm datatype
    | none => .ok ("\"" ++ lexicalForm ++ "\"")

/-- `compatibleArguments(arg1, arg2)` (source lines 158-165): false unless
both are literals; then
`(l1 && (!l2 || l1 === l2)) || (!l1 && !l2)` on the language tags, with
JavaScript truthiness (a tag is truthy iff non-empty). -/
def compatibleArguments (arg1 arg2 : String) : Bool :=
  if !(isLiteral arg1) || !(isLiteral arg2) then false
  else
    let l1 := getLiteralLanguage arg1
    let l2 := getLiteralLanguage arg2
    (decide (l1 ≠ "") && (l2 == "" || l1 == l2)) || (l1 == "" && l2 == "")

/-! ## Operator implementations (source lines 168-453)

`implDet` gives the behaviour of each registry entry on its (already
coerced) argument values; shapes that the compiled pipeline cannot produce
(wrong argument count — excluded by the arity check — or values of a type
the coercion cannot deliver) fall to the final catch-all.  The catch-all
returns `undefined`, which is also the actual behaviour of every
empty-bodied stub (date/time functions, hash functions, and all XSD
constructors except `xsd:double`): a JavaScript function with an empty
body returns `undefined` rather than throwing. -/

/-- `new RegExp(pattern).test(subject)`, modelled as substring search.
This is faithful only for patterns without regular-expression
metacharacters; no claim below depends on `regex`. -/
def jsRegexTest (pattern subject : String) : Bool := jsIndexOf subject pattern ≥ 0

/-- `Number.prototype.toFixed()` (zero digits): round half away from zero
to an integer string (ECMAScript picks the larger candidate on ties). -/
def jsToFixed0 : JSNum → String
  | .nan => "NaN"
  | .inf => "Infinity"
  | .ninf => "-Infinity"
  | .fin q => toString (q.add ⟨1, 2⟩).floor

/-- The value `getLiteralValue` yields inside `parseFloat(...)`: the n3
regular expression coerces and on failure the surrounding JavaScript sees
a non-numeric value, giving NaN downstream; this helper feeds the match
result (or the string of `null`) to `parseFloat`. -/
def literalValueOr (s : String) (dflt : String) : String :=
  match getLiteralValue s with
  | some v => v
  | none => dflt

/-- The deterministic operator implementations, by registry name. -/
def implDet (name : String) (args : List JSVal) : Except JSError JSVal :=
  match name, args with
  -- 17.4.1 Functional Forms.  Arithmetic and comparisons receive
  -- numerically coerced arguments (`operator.type === 'numeric'`).
  | "+", [.num a, .num b] => .ok (.num (a.add b))
  | "-", [.num a, .num b] => .ok (.num (a.sub b))
  | "*", [.num a, .num b] => .ok (.num (a.mul b))
  | "/", [.num a, .num b] => .ok (.num (a.div b))
  | "=", [a, b] => .ok (.bool (jsStrictEq a b))
  | "!=", [a, b] => .ok (.bool (!(jsStrictEq a b)))
  | "<", [.num a, .num b] => .ok (.bool (a.lt b))
  | "<=", [.num a, .num b] => .ok (.bool (a.le b))
  | ">", [.num a, .num b] => .ok (.bool (b.lt a))
  | ">=", [.num a, .num b] => .ok (.bool (b.le a))
  -- `!`, `&&`, `||` receive boolean-coerced arguments.
  | "!", [.bool a] => .ok (.bool (!a))
  | "&&", [.bool a, .bool b] => .ok (.bool (a && b))
  | "||", [.bool a, .bool b] => .ok (.bool (a || b))
  -- `if` calls `evaluators.operation(expression1)` on an evaluated VALUE:
  -- `value.operator` is `undefined`, `operators[undefined]` is `undefined`,
  -- and the error path then calls `toUpperCase` on the undefined operator
  -- name, so `if` always dies with a TypeError.
  | "if", [c, _, _] =>
      match c with
      | .undefinedV => .error (.typeError "Cannot read properties of undefined")
      | .null => .error (.typeError "Cannot read properties of null")
      | _ => .error (.typeError "Cannot read properties of undefined")
  -- `coalesce` calls `this.bound(a)` with `this` the global object
  -- (`operator.apply(null, args)` in sloppy mode), so `this.bound` is not
  -- a function.
  | "coalesce", [_, _] => .error (.typeError "this.bound is not a function")
  | "exists", [_] => .error (.jsError "EXISTS not yet supported")
  | "not exists", [_] => .error (.jsError "NOT EXISTS not yet supported")
  | "sameTerm", [a, b] =>
      if isBlankV a || isBlankV b then .ok (.str XSD_FALSE)
      else .ok (.str (if jsStrictEq a b then XSD_TRUE else XSD_FALSE))
  | "in", [] => .error (.jsError "IN not yet supported")
  | "not in", [] => .error (.jsError "NOT IN not yet supported")
  -- 17.4.2 Functions on RDF Terms
  | "isiri", [a] => .ok (.str (if isUriV a then XSD_TRUE else XSD_FALSE))
  | "isblank", [a] => .ok (.str (if isBlankV a then XSD_TRUE else XSD_FALSE))
  | "isliteral", [a] => .ok (.str (if isLiteralV a then XSD_TRUE else XSD_FALSE))
  -- `isnumeric` returns `numeric_types.indexOf(getLiteralType(a))` — a raw
  -- number, not a sentinel.
  | "isnumeric", [a] =>
      .ok (.num (.fin (match getLiteralType (jsValToString a) with
        | some t =>
            match numeric_types.findIdx? (fun x => x == t) with
            | some i => QR.ofInt (i : Int)
            | none => QR.ofInt (-1)
        | none => QR.ofInt (-1))))
  | "str", [a] =>
      let s := jsValToString a
      .ok (.str (if isLiteral s then "\"" ++ literalValueOr s "null" ++ "\""
                 else "\"" ++ s ++ "\""))
  | "lang", [a] => .ok (.str ("\"" ++ getLiteralLanguage (jsValToString a) ++ "\""))
  | "datatype", [a] =>
      .ok (match getLiteralType (jsValToString a) with
           | some t => .str t
           | none => .null)
  -- `iri` on a non-IRI falls into `isStringLiteral`, whose body reads the
  -- undefined free variable `a` (its parameter is named `str`), raising a
  -- ReferenceError.
  | "iri", [a] =>
      if isUriV a then .ok a else .error (.referenceError "a is not defined")
  | "bnode", [_] => .error (.jsError "BNODE not yet supported")
  | "strdt", [l, d] =>
      if !(isUriV d) then
        .error (.jsError ("Datatype" ++ jsValToString d ++ " is no valid IRI"))
      else .ok (.str ("\"" ++ jsValToString l ++ "\"^^<" ++ jsValToString d ++ ">"))
  | "strlang", [l, t] =>
      .ok (.str ("\"" ++ jsValToString l ++ "\"@" ++ jsValToString t))
  -- 17.4.3 String functions.
  -- `strlen` evaluates the argument expression `XSD_INT`, a variable that
  -- is defined nowhere in the module, before any call can happen.
  | "strlen", [_] => .error (.referenceError "XSD_INT is not defined")
  | "substr", [s, st, ln] =>
      let ss := jsValToString s
      match getLiteralValue ss with
      | none => .error (.typeError "Cannot read properties of null")
      | some v =>
          (constructLiteral (jsSubstr v (jsToNumber st) (jsToNumber ln)) ss).map .str
  | "ucase", [a] =>
      let s := jsValToString a
      match getLiteralValue s with
      | none => .error (.typeError "Cannot read properties of null")
      | some v => (constructLiteral (upperStr v) s).map .str
  | "lcase", [a] =>
      let s := jsValToString a
      match getLiteralValue s with
      | none => .error (.typeError "Cannot read properties of null")
      | some v => (constructLiteral (lowerStr v) s).map .str
  | "strstarts", [a, b] =>
      let s1 := jsValToString a
      let s2 := jsValToString b
      if !(compatibleArguments s1 s2) then
        .error (.jsError "STRSTARTS requires compatible arguments")
      else
        match getLiteralValue s1, getLiteralValue s2 with
        | some v1, some v2 => .ok (.bool (jsIndexOf v1 v2 == 0))
        | _, _ => .error (.typeError "Cannot read properties of null")
  | "strends", [a, b] =>
      let s1 := jsValToString a
      let s2 := jsValToString b
      if !(compatibleArguments s1 s2) then
        .error (.jsError "STRENDS requires compatible arguments")
      else
        match getLiteralValue s1, getLiteralValue s2 with
        | some v1, some v2 =>
            .ok (.str (if jsIndexOf v1 v2 == ((v1.length : Int) - (v2.length : Int))
                       then XSD_TRUE else XSD_FALSE))
        | _, _ => .error (.typeError "Cannot read properties of null")
  | "contains", [a, b] =>
      let s1 := jsValToString a
      let s2 := jsValToString b
      if !(compatibleArguments s1 s2) then
        .error (.jsError "CONTAINS requires compatible arguments")
      else
        match getLiteralValue s1, getLiteralValue s2 with
        | some v1, some v2 =>
            .ok (.str (if jsIndexOf v1 v2 > -1 then XSD_TRUE else XSD_FALSE))
        | _, _ => .error (.typeError "Cannot read properties of null")
  -- `strbefore` reuses the `CONTAINS` error message and slices the FULL
  -- term string `arg1`, exactly as written.
  | "strbefore", [a, b] =>
      let s1 := jsValToString a
      let s2 := jsValToString b
      if !(compatibleArguments s1 s2) then
        .error (.jsError "CONTAINS requires compatible arguments")
      else
        match getLiteralValue s1, getLiteralValue s2 with
        | some v1, some v2 =>
            let idx := jsIndexOf v1 v2
            let lex := if idx > -1 then
                         jsSubstr s1 (.fin (QR.ofInt (idx - 1))) (.fin ⟨1, 1⟩)
                       else ""
            (constructLiteral lex s1).map .str
        | _, _ => .error (.typeError "Cannot read properties of null")
  | "strafter", [a, b] =>
      let s1 := jsValToString a
      let s2 := jsValToString b
      if !(compatibleArguments s1 s2) then
        .error (.jsError "CONTAINS requires compatible arguments")
      else
        match getLiteralValue s1, getLiteralValue s2 with
        | some v1, some v2 =>
            let idx := jsIndexOf v1 v2
            let lex :=
              if v2 == "" then v1
              else if idx > -1 && (idx + (s2.length : Int)) < (s1.length : Int) then
                jsSubstr s1 (.fin (QR.ofInt (idx + (s2.length : Int)))) (.fin ⟨1, 1⟩)
              else ""
            (constructLiteral lex s1).map .str
        | _, _ => .error (.typeError "Cannot read properties of null")
  | "encode_for_uri", [_] => .error (.jsError "ENCODE_FOR_URI not yet supported")
  -- `concat` has declared arity 0, so this case is only reachable with an
  -- empty argument list, where `arguments.forEach` — absent on the
  -- array-like `arguments` object — raises a TypeError at once.
  | "concat", [] => .error (.typeError "arguments.forEach is not a function")
  | "langmatches", [a, b] =>
      match a, b with
      | .str x, .str y => .ok (.bool (lowerStr x == lowerStr y))
      | _, _ => .error (.typeError "toLowerCase is not a function")
  | "regex", [s, p] =>
      let ss := jsValToString s
      let subject := if isLiteralV s then literalValueOr ss "null" else ss
      .ok (.bool (jsRegexTest (literalValueOr (jsValToString p) "null") subject))
  | "replace", [_, _, _, _] => .error (.jsError "REPLACE not yet supported")
  -- 17.4.4 Functions on Numerics (`round` really calls `Math.abs`).
  | "abs", [.num a] => .ok (.num a.abs)
  | "round", [.num a] => .ok (.num a.abs)
  | "ceil", [.num a] => .ok (.num a.ceil)
  | "floor", [.num a] => .ok (.num a.floor)
  -- 17.5 XPath constructors: only xsd:double is implemented; it receives a
  -- numerically coerced argument, formats it with `toFixed()` and appends
  -- `.0` when no dot is present.
  | "http://www.w3.org/2001/XMLSchema#double", [.num a] =>
      let f := jsToFixed0 a
      let f1 := if strContainsC f '.' then f else f ++ ".0"
      .ok (.str ("\"" ++ f1 ++ "\"^^http://www.w3.org/2001/XMLSchema#double"))
  -- Every remaining registry entry is an empty-bodied stub (date/time
  -- functions, hash functions, the other XSD constructors) and returns
  -- `undefined`; the same catch-all also covers argument shapes that the
  -- compiled pipeline cannot produce.
  | _, _ => .ok .undefinedV

/-- An operator implementation, including the three that consume the
external nondeterminism source (`rand`, `uuid`, `struuid`, source lines
278-283 and 369-371); all other operators go through `implDet`. -/
def impl (name : String) (args : List JSVal) (ext : Ext) : Except JSError JSVal :=
  if name == "rand" then .ok (.num ext.rand)
  else if name == "uuid" then .ok (.str ("<urn:uuid:" ++ ext.uuid ++ ">"))
  else if name == "struuid" then .ok (.str ext.uuid)
  else implDet name args

/-! ## Argument and result coercion (source lines 103-135) -/

/-- Per-argument coercion (the `switch (operator.type)` at source lines
111-119): `numeric` is `parseFloat(N3Util.getLiteralValue(arg))`;
`boolean` is
`arg !== XSD_FALSE && (!N3Util.isLiteral(arg) || N3Util.getLiteralValue(arg) !== '0')`. -/
def coerceArg (k : CoKind) (v : JSVal) : JSVal :=
  match k with
  | .noConv => v
  | .numeric => .num (jsParseFloat (literalValueOr (jsValToString v) "null"))
  | .boolean =>
      .bool (!(jsStrictEq v (.str XSD_FALSE)) &&
             (!(isLiteral (jsValToString v)) ||
              (match getLiteralValue (jsValToString v) with
               | some l => decide (l ≠ "0")
               | none => true)))

/-- Result conversion (the `switch (operator.resultType)` at source lines
124-133).  In the `'numeric'` branch the datatype is
`N3Util.getLiteralType(origArgs[0]) || XSD_NUMERIC.INTEGER`;
`XSD_NUMERIC.INTEGER` is `undefined` (the tagging loop at source line 26
indexes with `type.toUpperCase`, parentheses missing), and string
concatenation renders `undefined` as the text `undefined`. -/
def resultConvert (name : String) (r : JSVal) (origArgs : List JSVal) : JSVal :=
  match resultCoercionKind name with
  | .numeric =>
      let t := match getLiteralType (jsValToString (origArgs.headD .undefinedV)) with
               | some t => t
               | none => "undefined"
      .str ("\"" ++ jsValToString r ++ "\"^^" ++ t)
  | .boolean => .str (if jsTruthy r then XSD_TRUE else XSD_FALSE)
  | .noConv => r

/-- `operators.bound` (source lines 209-213), invoked through the
`acceptsExpressions` path with the raw argument expressions and the
bindings object as `this`: a non-variable argument (first character not
`?`; for an operation node, `a[0]` is `undefined`) is rejected, otherwise
`a in this` decides between the sentinels. -/
def boundImpl (args : List Expr) (b : Bindings) : Except JSError JSVal :=
  match args with
  | (.str s) :: _ =>
      if strStartsWith s "?" then
        .ok (.str (if (bindingsGet b s).isSome then XSD_TRUE else XSD_FALSE))
      else .error (.jsError ("BOUND expects a variable but got: " ++ s))
  | (.operation _ _) :: _ =>
      .error (.jsError "BOUND expects a variable but got: [object Object]")
  | [] => .error (.typeError "Cannot read properties of undefined")

/-! ## Expression compiler (source lines 37-137) -/

/-- A compiled evaluator: the closure tree `SparqlExpressionEvaluator`
builds.  `noop` is the closure returned for a falsy expression; `boundC`
is the `acceptsExpressions` special case keeping the raw argument
expressions. -/
inductive Compiled where
  | noop
  | const (s : String)
  | varC (name : String)
  | boundC (args : List Expr)
  | opc (operator : String) (args : List Compiled)

mutual

/-- `SparqlExpressionEvaluator(expression)` (source lines 37-43 and
54-137), the compile phase: a falsy expression (the empty string) becomes
the no-op closure; a string becomes a constant or a variable lookup
closure; an operation resolves its operator, checks
`operator.length !== expression.args.length`, and either keeps the raw
arguments (`acceptsExpressions`) or compiles every child once.  No
bindings are consulted here. -/
def compile : Expr → Except JSError Compiled
  | .str s =>
      if s = "" then .ok .noop
      else if strStartsWith s "?" then .ok (.varC s)
      else .ok (.const s)
  | .operation name args =>
      match operatorArity name with
      | none => .error (.unsupportedOperator name)
      | some ar =>
          if args.length ≠ ar then .error (.invalidArgumentCount name args.length ar)
          else if acceptsExpressionsOp name then .ok (.boundC args)
          else
            match compileArgs args with
            | .error e => .error e
            | .ok cargs => .ok (.opc name cargs)

/-- Compiles each child expression in order (source lines 98-100),
propagating the first compile-time error. -/
def compileArgs : List Expr → Except JSError (List Compiled)
  | [] => .ok []
  | e :: es =>
      match compile e with
      | .error er => .error er
      | .ok c =>
          match compileArgs es with
          | .error er => .error er
          | .ok cs => .ok (c :: cs)

end

mutual

/-- Running a compiled evaluator on bindings (the closures of source lines
56-74 and 103-135): evaluate every child, apply the argument coercion,
call the implementation, convert the result. -/
def evalC : Compiled → Bindings → Ext → Except JSError JSVal
  | .noop, _, _ => .ok .undefinedV
  | .const s, _, _ => .ok (.str s)
  | .varC v, b, _ =>
      match bindingsGet b v with
      | some t => .ok (.str t)
      | none => .error (.unboundVariable v)
  | .boundC args, b, _ => boundImpl args b
  | .opc name cargs, b, ext =>
      match evalListC cargs b ext with
      | .error e => .error e
      | .ok vals =>
          match impl name (vals.map (coerceArg (argCoercionKind name))) ext with
          | .error e => .error e
          | .ok r => .ok (resultConvert name r vals)

/-- Evaluates a list of compiled children left to right, propagating the
first run-time error. -/
def evalListC : List Compiled → Bindings → Ext → Except JSError (List JSVal)
  | [], _, _ => .ok []
  | c :: cs, b, ext =>
      match evalC c b ext with
      | .error e => .error e
      | .ok v =>
          match evalListC cs b ext with
          | .error e => .error e
          | .ok vs => .ok (v :: vs)

end

/-- `SparqlExpressionEvaluator.evaluate(expression, bindings)` (source
lines 46-48): compile, then run on the bindings. -/
def evaluate (e : Expr) (b : Bindings) (ext : Ext) : Except JSError JSVal :=
  match compile e with
  | .error er => .error er
  | .ok c => evalC c b ext

mutual

/-- Does the expression tree contain one of the nondeterministic operators
`rand`, `uuid`, `struuid`? -/
def usesNondet : Expr → Bool
  | .str _ => false
  | .operation name args =>
      (name == "rand" || name == "uuid" || name == "struuid") || usesNondetL args

/-- List version of `usesNondet`. -/
def usesNondetL : List Expr → Bool
  | [] => false
  | e :: es => usesNondet e || usesNondetL es

end

mutual

/-- Does a compiled tree contain one of the nondeterministic operators? -/
def nondetFreeC : Compiled → Bool
  | .noop => true
  | .const _ => true
  | .varC _ => true
  | .boundC _ => true
  | .opc name cargs =>
      !(name == "rand" || name == "uuid" || name == "struuid") && nondetFreeListC cargs

/-- List version of `nondetFreeC`. -/
def nondetFreeListC : List Compiled → Bool
  | [] => true
  | c :: cs => nondetFreeC c && nondetFreeListC cs

end

/-- A fixed external source for concrete evaluations. -/
def ext0 : Ext := { rand := .fin ⟨0, 1⟩, uuid := "00000000-0000-4000-8000-000000000000" }

/-- A second, different external source, for the determinism claim. -/
def ext1 : Ext := { rand := .fin ⟨1, 2⟩, uuid := "ffffffff-ffff-4fff-bfff-ffffffffffff" }

/-- The claim's compatibility condition, written exactly as the spec words
it ("compatible iff both carry no language tag, or both carry the same
language tag").  Modelled from the spec for comparison with the source's
`compatibleArguments`. -/
def specClaimCompatible (a b : String) : Prop :=
  isLiteral a = true ∧ isLiteral b = true ∧
    ((getLiteralLanguage a = "" ∧ getLiteralLanguage b = "") ∨
     (getLiteralLanguage a = getLiteralLanguage b ∧ getLiteralLanguage a ≠ ""))

/-- The condition `compatibleArguments` actually decides: both literals,
and either both tags empty, or the first tag non-empty and the second
empty or equal to it. -/
def codeCompatible (a b : String) : Prop :=
  isLiteral a = true ∧ isLiteral b = true ∧
    ((getLiteralLanguage a = "" ∧ getLiteralLanguage b = "") ∨
     (getLiteralLanguage a ≠ "" ∧
      (getLiteralLanguage b = "" ∨ getLiteralLanguage b = getLiteralLanguage a)))

end SparqlEE

namespace SparqlEE

/-! ## Generic decidability of evaluation results -/

instance {ε α : Type} [DecidableEq ε] [DecidableEq α] : DecidableEq (Except ε α) :=
  fun a b =>
    match a, b with
    | .ok x, .ok y =>
        if h : x = y then .isTrue (by rw [h])
        else .isFalse (by intro hc; cases hc; exact h rfl)
    | .error x, .error y =>
        if h : x = y then .isTrue (by rw [h])
        else .isFalse (by intro hc; cases hc; exact h rfl)
    | .ok _, .error _ => .isFalse (by intro hc; cases hc)
    | .error _, .ok _ => .isFalse (by intro hc; cases hc)

end SparqlEE

namespace SparqlEE

/-! ## Shared lemmas -/

/-- A non-empty, non-variable string expression compiles to its constant
closure. -/
theorem compile_const_of (a : String) (ha0 : a ≠ "") (ha : strStartsWith a "?" = false) :
    compile (.str a) = .ok (.const a) := by
  simp [compile, ha0, ha]

/-- Operators other than `rand`, `uuid`, `struuid` never read the external
nondeterminism source. -/
theorem impl_ext_indep (name : String) (args : List JSVal) (x1 x2 : Ext)
    (h1 : (name == "rand") = false) (h2 : (name == "uuid") = false)
    (h3 : (name == "struuid") = false) :
    impl name args x1 = impl name args x2 := by
  simp [impl, h1, h2, h3]

mutual

/-- Running a nondeterminism-free compiled tree does not depend on the
external source. -/
theorem evalC_det : ∀ (c : Compiled), nondetFreeC c = true →
    ∀ (b : Bindings) (x1 x2 : Ext), evalC c b x1 = evalC c b x2
  | .noop, _, _, _, _ => rfl
  | .const _, _, _, _, _ => rfl
  | .varC _, _, _, _, _ => rfl
  | .boundC _, _, _, _, _ => rfl
  | .opc name cargs, h, b, x1, x2 => by
      simp only [nondetFreeC, Bool.and_eq_true] at h
      have hname : (name == "rand" || name == "uuid" || name == "struuid") = false := by
        cases hx : (name == "rand" || name == "uuid" || name == "struuid")
        · rfl
        · exact absurd h.1 (by simp [hx])
      have h1 : (name == "rand") = false := by
        cases hx : (name == "rand")
        · rfl
        · exact absurd hname (by simp [hx])
      have h2 : (name == "uuid") = false := by
        cases hx : (name == "uuid")
        · rfl
        · exact absurd hname (by simp [hx])
      have h3 : (name == "struuid") = false := by
        cases hx : (name == "struuid")
        · rfl
        · exact absurd hname (by simp [hx])
      have hl := evalListC_det cargs h.2 b x1 x2
      simp only [evalC]
      rw [hl]
      cases hv : evalListC cargs b x2 with
      | error e => rfl
      | ok vals =>
          simp only [impl_ext_indep name (vals.map (coerceArg (argCoercionKind name))) x1 x2
            h1 h2 h3]

/-- List version of `evalC_det`. -/
theorem evalListC_det : ∀ (cs : List Compiled), nondetFreeListC cs = true →
    ∀ (b : Bindings) (x1 x2 : Ext), evalListC cs b x1 = evalListC cs b x2
  | [], _, _, _, _ => rfl
  | c :: cs, h, b, x1, x2 => by
      simp only [nondetFreeListC, Bool.and_eq_true] at h
      simp only [evalListC]
      rw [evalC_det c h.1 b x1 x2, evalListC_det cs h.2 b x1 x2]

end

mutual

/-- Compiling an expression without nondeterministic operators yields a
nondeterminism-free compiled tree. -/
theorem compile_nondetFree : ∀ (e : Expr) (c : Compiled),
    usesNondet e = false → compile e = .ok c → nondetFreeC c = true
  | .str s, c, _, hc => by
      simp only [compile] at hc
      by_cases h1 : s = ""
      · rw [if_pos h1] at hc; cases hc; rfl
      · rw [if_neg h1] at hc
        by_cases h2 : strStartsWith s "?" = true
        · rw [if_pos h2] at hc; cases hc; rfl
        · rw [if_neg h2] at hc; cases hc; rfl
  | .operation name args, c, h, hc => by
      simp only [usesNondet, Bool.or_eq_false_iff] at h
      obtain ⟨hname, hargs⟩ := h
      simp only [compile] at hc
      split at hc
      · cases hc
      · split at hc
        · cases hc
        · split at hc
          · cases hc; rfl
          · split at hc
            · cases hc
            · rename_i cargs hca
              cases hc
              simp only [nondetFreeC, Bool.and_eq_true]
              refine ⟨by simp [hname], ?_⟩
              exact compileArgs_nondetFree args cargs hargs hca

/-- List version of `compile_nondetFree`. -/
theorem compileArgs_nondetFree : ∀ (es : List Expr) (cs : List Compiled),
    usesNondetL es = false → compileArgs es = .ok cs → nondetFreeListC cs = true
  | [], cs, _, hc => by cases hc; rfl
  | e :: es, cs, h, hc => by
      simp only [usesNondetL, Bool.or_eq_false_iff] at h
      simp only [compileArgs] at hc
      split at hc
      · cases hc
      · rename_i c0 h1
        split at hc
        · cases hc
        · rename_i cs0 h2
          cases hc
          simp only [nondetFreeListC, Bool.and_eq_true]
          exact ⟨compile_nondetFree e c0 h.1 h1, compileArgs_nondetFree es cs0 h.2 h2⟩

end

end SparqlEE

namespace SparqlEE

/-! ## Claim theorems -/

/-- C1: the claim says every comparison operator returns one of the
sentinels `"true"^^xsd:boolean` / `"false"^^xsd:boolean`.  The code does
not: because the second initialiser of `XSD_BOOLEAN` (source line 7)
overwrites the first with the string datatype, the sentinels are
`"true"^^xsd:string` / `"false"^^xsd:string`; and `!=` is missing from the
boolean `resultType` list (source line 480), so `!=` returns a raw
JavaScript boolean, not a literal at all.  This theorem evaluates the code
at the failing inputs. -/
theorem c1_comparison_sentinel_code_eval :
    evaluate (.operation "<"
        [.str "\"3\"^^http://www.w3.org/2001/XMLSchema#integer",
         .str "\"4\"^^http://www.w3.org/2001/XMLSchema#integer"]) [] ext0 =
      .ok (.str XSD_TRUE) ∧
    XSD_TRUE = "\"true\"^^http://www.w3.org/2001/XMLSchema#string" ∧
    XSD_TRUE ≠ "\"true\"^^http://www.w3.org/2001/XMLSchema#boolean" ∧
    evaluate (.operation "!=" [.str "\"1\"", .str "\"2\""]) [] ext0 =
      .ok (.bool true) := by
  refine ⟨by decide, by decide, by decide, by decide⟩

/-- C2: the claim says every declared stub raises an unsupported-operator
error.  Only `exists`, `not exists`, `in`, `not in`, `bnode`,
`encode_for_uri` and `replace` throw; the hash functions, the date/time
functions and the XSD constructors other than `xsd:double` have empty
bodies (source lines 373-451) and silently return `undefined`.  This
theorem evaluates the code at failing inputs (`md5`, `now`, `year`, the
`xsd:integer` constructor) and at a compliant one (`exists`). -/
theorem c2_stub_operators_code_eval :
    evaluate (.operation "md5" [.str "\"abc\""]) [] ext0 = .ok .undefinedV ∧
    evaluate (.operation "now" ([] : List Expr)) [] ext0 = .ok .undefinedV ∧
    evaluate (.operation "year" [.str "\"2020\""]) [] ext0 = .ok .undefinedV ∧
    evaluate (.operation "http://www.w3.org/2001/XMLSchema#integer"
        [.str "\"4\""]) [] ext0 = .ok .undefinedV ∧
    evaluate (.operation "exists" [.str "\"x\""]) [] ext0 =
      .error (.jsError "EXISTS not yet supported") := by
  refine ⟨by decide, by decide, by decide, by decide, by decide⟩

/-- C3: the claim says arithmetic on numeric literals defaults the result
datatype to `xsd:integer` when the first operand carries none.  The typed
case works (`"2"^^xsd:integer + "3"^^xsd:integer → "5"^^xsd:integer`), but
the untyped default is broken: `XSD_NUMERIC.INTEGER` is `undefined`
because the table was filled at the key `type.toUpperCase` (the function
object — the call parentheses are missing, source line 26), so the result
is the literal text `"5"^^undefined`. -/
theorem c3_arithmetic_default_type_code_eval :
    evaluate (.operation "+"
        [.str "\"2\"^^http://www.w3.org/2001/XMLSchema#integer",
         .str "\"3\"^^http://www.w3.org/2001/XMLSchema#integer"]) [] ext0 =
      .ok (.str "\"5\"^^http://www.w3.org/2001/XMLSchema#integer") ∧
    evaluate (.operation "+" [.str "\"2\"", .str "\"3\""]) [] ext0 =
      .ok (.str "\"5\"^^undefined") ∧
    ("\"5\"^^undefined" : String) ≠ "\"5\"^^http://www.w3.org/2001/XMLSchema#integer" := by
  refine ⟨by decide, by decide, by decide⟩

/-- C4: the claim says boolean argument coercion maps a term to false iff
it is the false-boolean sentinel (`"false"^^xsd:boolean` per the spec's
data model) or a literal with lexical value `"0"`.  Because of the
`XSD_BOOLEAN` overwrite (source line 7), the code's false constant is
`"false"^^xsd:string`: the term `"false"^^xsd:boolean` coerces to *true*
(`!` maps it to the false sentinel), while `"false"^^xsd:string` coerces
to false. -/
theorem c4_boolean_coercion_code_eval :
    evaluate (.operation "!"
        [.str "\"false\"^^http://www.w3.org/2001/XMLSchema#boolean"]) [] ext0 =
      .ok (.str XSD_FALSE) ∧
    evaluate (.operation "!" [.str XSD_FALSE]) [] ext0 = .ok (.str XSD_TRUE) ∧
    XSD_FALSE ≠ "\"false\"^^http://www.w3.org/2001/XMLSchema#boolean" := by
  refine ⟨by decide, by decide, by decide⟩

/-- C8: the claim says `CONCAT("foo", "bar")` returns the simple literal
`"foobar"` via the `constructLiteral` tagging rule of its first argument.
It cannot: `concat` is written as a variadic function with no declared
parameters, so its declared arity (`operator.length`) is 0, and the
compile-time arity check rejects every call that passes arguments (and a
zero-argument call would crash anyway, because the array-like `arguments`
object has no `forEach`). -/
theorem c8_concat_code_eval :
    compile (.operation "concat" [.str "\"foo\"", .str "\"bar\""]) =
      .error (.invalidArgumentCount "concat" 2 0) ∧
    evaluate (.operation "concat" [.str "\"foo\"", .str "\"bar\""]) [] ext0 =
      .error (.invalidArgumentCount "concat" 2 0) := by
  refine ⟨rfl, by decide⟩

/-- C5 counterexample: the claim's compatibility condition ("both carry no
language tag, or both carry the same language tag") rejects
`("hello"@en, "he")`, but `compatibleArguments` accepts it: the source
formula `(l1 && (!l2 || l1 === l2)) || (!l1 && !l2)` is true when the
first argument has a language tag and the second has none. -/
theorem c5_compat_counterexample :
    compatibleArguments "\"hello\"@en" "\"he\"" = true ∧
    ¬ specClaimCompatible "\"hello\"@en" "\"he\"" := by
  refine ⟨by decide, ?_⟩
  simp only [specClaimCompatible]
  decide

end SparqlEE

namespace SparqlEE

/-- Plumbing shared by the string-function conjuncts of the amended C5
statement: for a registry operator of declared arity 2 that takes
evaluated, uncoerced arguments, evaluating it on two constant terms
reduces to its implementation. -/
theorem binop_error_eval (name : String) (er : JSError) (a b : String)
    (bnd : Bindings) (ext : Ext)
    (ha0 : a ≠ "") (ha : strStartsWith a "?" = false)
    (hb0 : b ≠ "") (hb : strStartsWith b "?" = false)
    (harr : operatorArity name = some 2)
    (hacc : acceptsExpressionsOp name = false)
    (hnum : argCoercionKind name = .noConv)
    (hx : impl name [.str a, .str b] ext = .error er) :
    evaluate (.operation name [.str a, .str b]) bnd ext = .error er := by
  have hco : compile (.operation name [.str a, .str b]) =
      .ok (.opc name [.const a, .const b]) := by
    simp [compile, compileArgs, harr, hacc, ha0, ha, hb0, hb]
  simp only [evaluate, hco]
  have h1 : evalC (.opc name [.const a, .const b]) bnd ext =
      (match impl name ([.str a, .str b].map (coerceArg (argCoercionKind name))) ext with
       | .error e => .error e
       | .ok r => .ok (resultConvert name r [.str a, .str b])) := rfl
  rw [h1, hnum]
  rw [show List.map (coerceArg CoKind.noConv) [JSVal.str a, JSVal.str b] =
    [JSVal.str a, JSVal.str b] from rfl]
  rw [hx]

/-- C5 (amended): `compatibleArguments(a, b)` returns true iff both are
literals and either both carry no language tag, or the first carries a
language tag and the second carries none or the same tag (the source
formula `(l1 && (!l2 || l1 === l2)) || (!l1 && !l2)` also accepts a tagged
first argument with an untagged second, which the claim as stated
rejects); each of the five string functions `STRSTARTS`, `STRENDS`,
`CONTAINS`, `STRBEFORE`, `STRAFTER` raises the argument-compatibility
error when its two constant-term arguments are incompatible (the source
reuses the `CONTAINS` message for the last three), and the claim's two
`STRSTARTS` examples behave as stated. -/
theorem c5_compat_amended :
    (∀ a b : String, compatibleArguments a b = true ↔ codeCompatible a b) ∧
    (∀ (a b : String) (bnd : Bindings) (ext : Ext),
        a ≠ "" → strStartsWith a "?" = false →
        b ≠ "" → strStartsWith b "?" = false →
        compatibleArguments a b = false →
        evaluate (.operation "strstarts" [.str a, .str b]) bnd ext =
          .error (.jsError "STRSTARTS requires compatible arguments")) ∧
    (∀ (a b : String) (bnd : Bindings) (ext : Ext),
        a ≠ "" → strStartsWith a "?" = false →
        b ≠ "" → strStartsWith b "?" = false →
        compatibleArguments a b = false →
        evaluate (.operation "strends" [.str a, .str b]) bnd ext =
          .error (.jsError "STRENDS requires compatible arguments")) ∧
    (∀ (a b : String) (bnd : Bindings) (ext : Ext),
        a ≠ "" → strStartsWith a "?" = false →
        b ≠ "" → strStartsWith b "?" = false →
        compatibleArguments a b = false →
        evaluate (.operation "contains" [.str a, .str b]) bnd ext =
          .error (.jsError "CONTAINS requires compatible arguments")) ∧
    (∀ (a b : String) (bnd : Bindings) (ext : Ext),
        a ≠ "" → strStartsWith a "?" = false →
        b ≠ "" → strStartsWith b "?" = false →
        compatibleArguments a b = false →
        evaluate (.operation "strbefore" [.str a, .str b]) bnd ext =
          .error (.jsError "CONTAINS requires compatible arguments")) ∧
    (∀ (a b : String) (bnd : Bindings) (ext : Ext),
        a ≠ "" → strStartsWith a "?" = false →
        b ≠ "" → strStartsWith b "?" = false →
        compatibleArguments a b = false →
        evaluate (.operation "strafter" [.str a, .str b]) bnd ext =
          .error (.jsError "CONTAINS requires compatible arguments")) ∧
    evaluate (.operation "strstarts"
        [.str "\"hello\"@en", .str "\"he\"@en"]) [] ext0 = .ok (.bool true) ∧
    evaluate (.operation "strstarts"
        [.str "\"hello\"@en", .str "\"he\"@fr"]) [] ext0 =
      .error (.jsError "STRSTARTS requires compatible arguments") := by
  refine ⟨?_, ?_, ?_, ?_, ?_, ?_, by decide, by decide⟩
  · intro a b
    unfold compatibleArguments codeCompatible
    by_cases hA : isLiteral a
    · by_cases hB : isLiteral b
      · simp only [hA, hB]
        simp
        constructor
        · rintro (⟨h1, h2⟩ | ⟨h1, h2⟩)
          · exact Or.inr ⟨h1, h2.imp id Eq.symm⟩
          · exact Or.inl ⟨h1, h2⟩
        · rintro (⟨h1, h2⟩ | ⟨h1, h2⟩)
          · exact Or.inr ⟨h1, h2⟩
          · exact Or.inl ⟨h1, h2.imp id Eq.symm⟩
      · simp [hA, hB]
    · simp [hA]
  · intro a b bnd ext ha0 ha hb0 hb hcompat
    have hco : compile (.operation "strstarts" [.str a, .str b]) =
        .ok (.opc "strstarts" [.const a, .const b]) := by
      simp [compile, compileArgs, ha0, ha, hb0, hb]
      rfl
    simp only [evaluate, hco]
    have h1 : evalC (.opc "strstarts" [.const a, .const b]) bnd ext =
        (match implDet "strstarts" [.str a, .str b] with
         | .error e => .error e
         | .ok r => .ok (resultConvert "strstarts" r [.str a, .str b])) := rfl
    rw [h1]
    have h2 : implDet "strstarts" [.str a, .str b] =
        (if !(compatibleArguments a b) then
          .error (.jsError "STRSTARTS requires compatible arguments")
         else match getLiteralValue a, getLiteralValue b with
          | some v1, some v2 => .ok (.bool (jsIndexOf v1 v2 == 0))
          | _, _ => .error (.typeError "Cannot read properties of null")) := rfl
    rw [h2, hcompat]
    rfl
  · intro a b bnd ext ha0 ha hb0 hb hcompat
    refine binop_error_eval "strends" (.jsError "STRENDS requires compatible arguments")
      a b bnd ext ha0 ha hb0 hb rfl rfl rfl ?_
    have h2 : impl "strends" [.str a, .str b] ext =
        (if !(compatibleArguments a b) then
          .error (.jsError "STRENDS requires compatible arguments")
         else match getLiteralValue a, getLiteralValue b with
          | some v1, some v2 =>
              .ok (.str (if jsIndexOf v1 v2 == ((v1.length : Int) - (v2.length : Int))
                         then XSD_TRUE else XSD_FALSE))
          | _, _ => .error (.typeError "Cannot read properties of null")) := rfl
    rw [h2, hcompat]
    rfl
  · intro a b bnd ext ha0 ha hb0 hb hcompat
    refine binop_error_eval "contains" (.jsError "CONTAINS requires compatible arguments")
      a b bnd ext ha0 ha hb0 hb rfl rfl rfl ?_
    have h2 : impl "contains" [.str a, .str b] ext =
        (if !(compatibleArguments a b) then
          .error (.jsError "CONTAINS requires compatible arguments")
         else match getLiteralValue a, getLiteralValue b with
          | some v1, some v2 =>
              .ok (.str (if jsIndexOf v1 v2 > -1 then XSD_TRUE else XSD_FALSE))
          | _, _ => .error (.typeError "Cannot read properties of null")) := rfl
    rw [h2, hcompat]
    rfl
  · intro a b bnd ext ha0 ha hb0 hb hcompat
    refine binop_error_eval "strbefore" (.jsError "CONTAINS requires compatible arguments")
      a b bnd ext ha0 ha hb0 hb rfl rfl rfl ?_
    have h2 : impl "strbefore" [.str a, .str b] ext =
        (if !(compatibleArguments a b) then
          .error (.jsError "CONTAINS requires compatible arguments")
         else match getLiteralValue a, getLiteralValue b with
          | some v1, some v2 =>
              let idx := jsIndexOf v1 v2
              let lex := if idx > -1 then
                           jsSubstr a (.fin (QR.ofInt (idx - 1))) (.fin ⟨1, 1⟩)
                         else ""
              (constructLiteral lex a).map .str
          | _, _ => .error (.typeError "Cannot read properties of null")) := rfl
    rw [h2, hcompat]
    rfl
  · intro a b bnd ext ha0 ha hb0 hb hcompat
    refine binop_error_eval "strafter" (.jsError "CONTAINS requires compatible arguments")
      a b bnd ext ha0 ha hb0 hb rfl rfl rfl ?_
    have h2 : impl "strafter" [.str a, .str b] ext =
        (if !(compatibleArguments a b) then
          .error (.jsError "CONTAINS requires compatible arguments")
         else match getLiteralValue a, getLiteralValue b with
          | some v1, some v2 =>
              let idx := jsIndexOf v1 v2
              let lex :=
                if v2 == "" then v1
                else if idx > -1 && (idx + (b.length : Int)) < (a.length : Int) then
                  jsSubstr a (.fin (QR.ofInt (idx + (b.length : Int)))) (.fin ⟨1, 1⟩)
                else ""
              (constructLiteral lex a).map .str
          | _, _ => .error (.typeError "Cannot read properties of null")) := rfl
    rw [h2, hcompat]
    rfl

/-- C5 witness: a concrete incompatible pair (`"a"` untagged, `"b"@fr`
tagged) makes `STRSTARTS` raise the compatibility error. -/
theorem c5_compat_amended_witness :
    evaluate (.operation "strstarts" [.str "\"a\"", .str "\"b\"@fr"]) [] ext0 =
      .error (.jsError "STRSTARTS requires compatible arguments") :=
  c5_compat_amended.2.1 "\"a\"" "\"b\"@fr" [] ext0 (by decide) (by decide)
    (by decide) (by decide) (by decide)

/-- C6: `BOUND(?x)` returns the true sentinel when `?x` is bound, the
false sentinel when it is absent (no unbound-variable error: the raw
expression is never compiled), and rejects a non-variable argument with
the `BOUND expects a variable` error.  The sentinels are the code's
`XSD_TRUE` / `XSD_FALSE` constants. -/
theorem c6_bound :
    (∀ (b : Bindings) (v t : String) (ext : Ext),
        strStartsWith v "?" = true → bindingsGet b v = some t →
        evaluate (.operation "bound" [.str v]) b ext = .ok (.str XSD_TRUE)) ∧
    (∀ (b : Bindings) (v : String) (ext : Ext),
        strStartsWith v "?" = true → bindingsGet b v = none →
        evaluate (.operation "bound" [.str v]) b ext = .ok (.str XSD_FALSE)) ∧
    (∀ (b : Bindings) (s : String) (ext : Ext),
        strStartsWith s "?" = false →
        evaluate (.operation "bound" [.str s]) b ext =
          .error (.jsError ("BOUND expects a variable but got: " ++ s))) := by
  refine ⟨?_, ?_, ?_⟩
  · intro b v t ext h1 h2
    have hc : compile (.operation "bound" [.str v]) = .ok (.boundC [.str v]) := rfl
    simp only [evaluate, hc]
    have he : evalC (.boundC [.str v]) b ext = boundImpl [.str v] b := rfl
    rw [he]
    simp [boundImpl, h1, h2]
  · intro b v ext h1 h2
    have hc : compile (.operation "bound" [.str v]) = .ok (.boundC [.str v]) := rfl
    simp only [evaluate, hc]
    have he : evalC (.boundC [.str v]) b ext = boundImpl [.str v] b := rfl
    rw [he]
    simp [boundImpl, h1, h2]
  · intro b s ext h1
    have hc : compile (.operation "bound" [.str s]) = .ok (.boundC [.str s]) := rfl
    simp only [evaluate, hc]
    have he : evalC (.boundC [.str s]) b ext = boundImpl [.str s] b := rfl
    rw [he]
    simp [boundImpl, h1]

/-- C6 witness: `BOUND(?x)` with `?x` bound returns the true sentinel. -/
theorem c6_bound_witness :
    evaluate (.operation "bound" [.str "?x"]) [("?x", "\"a\"")] ext0 =
      .ok (.str XSD_TRUE) :=
  c6_bound.1 [("?x", "\"a\"")] "?x" "\"a\"" ext0 (by decide) (by decide)

/-- C7: for an operator name that resolves in the registry, compilation
fails with the arity-mismatch error exactly when the argument count
differs from the declared arity, and a successful compilation implies the
counts match.  The check happens in `compile`, which never sees any
bindings. -/
theorem c7_arity (name : String) (ar : Nat) (args : List Expr)
    (hreg : operatorArity name = some ar) :
    (args.length ≠ ar →
        compile (.operation name args) =
          .error (.invalidArgumentCount name args.length ar)) ∧
    (∀ c, compile (.operation name args) = .ok c → args.length = ar) := by
  constructor
  · intro hne
    simp only [compile, hreg]
    rw [if_pos hne]
  · intro c hc
    by_contra hne
    simp only [compile, hreg] at hc
    rw [if_pos hne] at hc
    cases hc

/-- C7 witness: `strlen` declares one parameter, so zero arguments fail at
compile time with the arity error. -/
theorem c7_arity_witness :
    compile (.operation "strlen" ([] : List Expr)) =
      .error (.invalidArgumentCount "strlen" 0 1) :=
  (c7_arity "strlen" 1 [] (by decide)).1 (by decide)

/-- C9: a compiled evaluator for an expression containing none of `rand`,
`uuid`, `struuid` is a pure function of the bindings: evaluating twice
with the same bindings but arbitrary states of the external
nondeterminism source yields identical output. -/
theorem c9_deterministic (e : Expr) (h : usesNondet e = false) (b : Bindings)
    (x1 x2 : Ext) : evaluate e b x1 = evaluate e b x2 := by
  simp only [evaluate]
  cases hc : compile e with
  | error er => rfl
  | ok c => exact evalC_det c (compile_nondetFree e c h hc) b x1 x2

/-- C9 witness: two different external sources give the same result for an
arithmetic expression. -/
theorem c9_deterministic_witness :
    evaluate (.operation "+" [.str "\"2\"", .str "\"3\""]) [] ext0 =
      evaluate (.operation "+" [.str "\"2\"", .str "\"3\""]) [] ext1 :=
  c9_deterministic (.operation "+" [.str "\"2\"", .str "\"3\""]) (by decide) []
    ext0 ext1

/-- C10: `=` receives no argument coercion (`argCoercionKind "=" = noConv`),
so equality of two constant terms is exact string comparison of their
encodings, boxed into the code's sentinels; in particular
`"1"^^xsd:integer = "01"^^xsd:integer` and `"1" = "1"^^xsd:integer` are
both the false sentinel. -/
theorem c10_equality :
    (∀ (a b : String) (bnd : Bindings) (ext : Ext),
        a ≠ "" → strStartsWith a "?" = false →
        b ≠ "" → strStartsWith b "?" = false →
        evaluate (.operation "=" [.str a, .str b]) bnd ext =
          .ok (.str (if a = b then XSD_TRUE else XSD_FALSE))) ∧
    argCoercionKind "=" = .noConv ∧
    evaluate (.operation "="
        [.str "\"1\"^^http://www.w3.org/2001/XMLSchema#integer",
         .str "\"01\"^^http://www.w3.org/2001/XMLSchema#integer"]) [] ext0 =
      .ok (.str XSD_FALSE) ∧
    evaluate (.operation "="
        [.str "\"1\"",
         .str "\"1\"^^http://www.w3.org/2001/XMLSchema#integer"]) [] ext0 =
      .ok (.str XSD_FALSE) := by
  refine ⟨?_, by decide, by decide, by decide⟩
  intro a b bnd ext ha0 ha hb0 hb
  have hco : compile (.operation "=" [.str a, .str b]) =
      .ok (.opc "=" [.const a, .const b]) := by
    simp [compile, compileArgs, ha0, ha, hb0, hb]
    rfl
  simp only [evaluate, hco]
  have h1 : evalC (.opc "=" [.const a, .const b]) bnd ext =
      .ok (resultConvert "=" (.bool (jsStrictEq (.str a) (.str b)))
        [.str a, .str b]) := rfl
  rw [h1]
  have hrc : resultCoercionKind "=" = .boolean := rfl
  by_cases h : a = b <;> simp [jsStrictEq, resultConvert, hrc, jsTruthy, h]

/-- C10 witness: two distinct constant literals compare to the false
sentinel. -/
theorem c10_equality_witness :
    evaluate (.operation "=" [.str "\"a\"", .str "\"b\""]) [] ext0 =
      .ok (.str XSD_FALSE) := by
  have h := c10_equality.1 "\"a\"" "\"b\"" [] ext0 (by decide) (by decide)
    (by decide) (by decide)
  rwa [if_neg (by decide)] at h

end SparqlEE
